import Mathlib

/-!
Verification of the MoltOracle aggregation core against its design document.

The JavaScript source is shallowly embedded: JS numbers are modelled as
rationals (ℚ), JS objects holding per-ticker records as association lists,
`Math.round` as `jsRound` (floor of x + 1/2, which is the JS rounding rule
for non-negative finite arguments), and the mutable server state (snapshot
cache, rate-limit table) as explicit state passed through the handler
functions.  `Date.now()` / `Date.now()/1000` are passed in as explicit
clock arguments.
-/

namespace MoltOracle

/-- The JS `Math.round` on finite inputs: floor of `x + 1/2` (ties go up). -/
def jsRound (x : ℚ) : ℤ := ⌊x + 1/2⌋

/-- One CoinGecko per-ticker quote as built by `fetchCoinGecko` in
`src/sources.js`: `{ price, change24h, marketCap, source: 'coingecko' }`.
The `change24h` / `marketCap` fields are `Option` because the upstream JSON
may omit them (JS `undefined`). -/
structure CGQuote where
  price : ℚ
  change24h : Option ℚ
  marketCap : Option ℚ
  source : String
deriving DecidableEq, Repr

/-- One DeFiLlama per-ticker quote as built by `fetchDeFiLlama`:
`{ price, confidence, source: 'defillama' }`. -/
structure DLQuote where
  price : ℚ
  confidence : ℚ
  source : String
deriving DecidableEq, Repr

/-- The record returned by `crossVerify` in `src/sources.js`.  A JS object
key that a branch does not set (e.g. `prices` and `warning` in the
single-source branches) is modelled as `none`; a key explicitly set to
`null` (the `warning` key when divergence is small) is also `none`, matching
JSON serialisation.  The trailing `dataHash` / `asset` / `timestamp` / `iso`
fields are absent when the record is built and are assigned later, in place,
by the HTTP handlers in the server file; they start as `none`. -/
structure VerifiedPrice where
  price : ℚ
  prices : Option (ℚ × ℚ)
  sources : ℕ
  sourceNames : List String
  confidence : ℕ
  divergenceBps : ℤ
  change24h : Option ℚ
  marketCap : Option ℚ
  warning : Option String
  dataHash : Option String := none
  asset : Option String := none
  timestamp : Option ℤ := none
  iso : Option String := none
deriving DecidableEq, Repr

/-- Embedding of `crossVerify(coinGecko, deFiLlama, asset)` from
`src/sources.js` lines 169–198.  `coinGecko[asset]` / `deFiLlama[asset]`
property reads become association-list lookups. -/
def crossVerify (coinGecko : List (String × CGQuote))
    (deFiLlama : List (String × DLQuote)) (asset : String) :
    Option VerifiedPrice :=
  match List.lookup asset coinGecko, List.lookup asset deFiLlama with
  | none, none => none
  | none, some dl =>
      some { price := dl.price, prices := none, sources := 1,
             sourceNames := ["defillama"], confidence := 60,
             divergenceBps := 0, change24h := none, marketCap := none,
             warning := none }
  | some cg, none =>
      some { price := cg.price, prices := none, sources := 1,
             sourceNames := ["coingecko"], confidence := 60,
             divergenceBps := 0, change24h := none, marketCap := none,
             warning := none }
  | some cg, some dl =>
      let avg := (cg.price + dl.price) / 2
      let diff := |cg.price - dl.price|
      let divergenceBps := jsRound (diff / avg * 10000)
      let confidence : ℕ :=
        if divergenceBps ≤ 10 then 99
        else if divergenceBps ≤ 50 then 95
        else if divergenceBps ≤ 100 then 85
        else if divergenceBps ≤ 300 then 70
        else 40
      some { price := avg, prices := some (cg.price, dl.price), sources := 2,
             sourceNames := ["coingecko", "defillama"],
             confidence := confidence, divergenceBps := divergenceBps,
             change24h := cg.change24h, marketCap := cg.marketCap,
             warning :=
               if divergenceBps > 300 then
                 some ("HIGH DIVERGENCE: " ++ toString divergenceBps ++
                   "bps between sources")
               else none }

/-- Divergence in basis points, as computed by the two-source branch of
`crossVerify`: `Math.round(|cg - dl| / avg * 10000)` with `avg` the mean. -/
def divergenceOf (a b : ℚ) : ℤ := jsRound (|a - b| / ((a + b) / 2) * 10000)

lemma crossVerify_both {coinGecko : List (String × CGQuote)}
    {deFiLlama : List (String × DLQuote)} {asset : String}
    {cg : CGQuote} {dl : DLQuote}
    (hcg : List.lookup asset coinGecko = some cg)
    (hdl : List.lookup asset deFiLlama = some dl) :
    crossVerify coinGecko deFiLlama asset =
      some { price := (cg.price + dl.price) / 2,
             prices := some (cg.price, dl.price),
             sources := 2,
             sourceNames := ["coingecko", "defillama"],
             confidence :=
               if divergenceOf cg.price dl.price ≤ 10 then 99
               else if divergenceOf cg.price dl.price ≤ 50 then 95
               else if divergenceOf cg.price dl.price ≤ 100 then 85
               else if divergenceOf cg.price dl.price ≤ 300 then 70
               else 40,
             divergenceBps := divergenceOf cg.price dl.price,
             change24h := cg.change24h,
             marketCap := cg.marketCap,
             warning :=
               if divergenceOf cg.price dl.price > 300 then
                 some ("HIGH DIVERGENCE: " ++
                   toString (divergenceOf cg.price dl.price) ++
                   "bps between sources")
               else none } := by
  unfold crossVerify divergenceOf jsRound
  rw [hcg, hdl]

/-- C1: for every two-source reconciliation, the confidence score follows the
fixed monotonic table on `divergenceBps` (≤10 → 99, ≤50 → 95, ≤100 → 85,
≤300 → 70, else 40), and a warning string naming the exact basis-point figure
is attached if and only if `divergenceBps > 300`. -/
theorem claim1_confidence_table
    (coinGecko : List (String × CGQuote)) (deFiLlama : List (String × DLQuote))
    (asset : String) (cg : CGQuote) (dl : DLQuote)
    (hcg : List.lookup asset coinGecko = some cg)
    (hdl : List.lookup asset deFiLlama = some dl) :
    ∃ r, crossVerify coinGecko deFiLlama asset = some r ∧
      (r.divergenceBps ≤ 10 → r.confidence = 99) ∧
      (10 < r.divergenceBps → r.divergenceBps ≤ 50 → r.confidence = 95) ∧
      (50 < r.divergenceBps → r.divergenceBps ≤ 100 → r.confidence = 85) ∧
      (100 < r.divergenceBps → r.divergenceBps ≤ 300 → r.confidence = 70) ∧
      (300 < r.divergenceBps → r.confidence = 40) ∧
      (r.warning.isSome ↔ 300 < r.divergenceBps) ∧
      (300 < r.divergenceBps →
        r.warning = some ("HIGH DIVERGENCE: " ++ toString r.divergenceBps ++
          "bps between sources")) := by
  refine ⟨_, crossVerify_both hcg hdl, ?_⟩
  dsimp only
  generalize divergenceOf cg.price dl.price = d
  refine ⟨?_, ?_, ?_, ?_, ?_, ?_, ?_⟩ <;> split_ifs <;>
    simp_all <;> omega

/-- evaluation inputs used by the claim witnesses -/
def cgQuoteW : CGQuote :=
  { price := 67000, change24h := some (-2), marketCap := some 1320000000000,
    source := "coingecko" }

/-- evaluation inputs used by the claim witnesses -/
def dlQuoteW : DLQuote :=
  { price := 67005, confidence := 99/100, source := "defillama" }

/-- witness for C1 at a concrete two-source input -/
theorem claim1_confidence_table_witness :
    List.lookup "BTC" [("BTC", cgQuoteW)] = some cgQuoteW ∧
    List.lookup "BTC" [("BTC", dlQuoteW)] = some dlQuoteW ∧
    (∃ r, crossVerify [("BTC", cgQuoteW)] [("BTC", dlQuoteW)] "BTC" = some r ∧
      (r.divergenceBps ≤ 10 → r.confidence = 99) ∧
      (10 < r.divergenceBps → r.divergenceBps ≤ 50 → r.confidence = 95) ∧
      (50 < r.divergenceBps → r.divergenceBps ≤ 100 → r.confidence = 85) ∧
      (100 < r.divergenceBps → r.divergenceBps ≤ 300 → r.confidence = 70) ∧
      (300 < r.divergenceBps → r.confidence = 40) ∧
      (r.warning.isSome ↔ 300 < r.divergenceBps) ∧
      (300 < r.divergenceBps →
        r.warning = some ("HIGH DIVERGENCE: " ++ toString r.divergenceBps ++
          "bps between sources"))) :=
  ⟨rfl, rfl,
    claim1_confidence_table [("BTC", cgQuoteW)] [("BTC", dlQuoteW)] "BTC"
      cgQuoteW dlQuoteW rfl rfl⟩

/-- C2: for every ticker for which both price adapters produced a quote, the
merged price is exactly the arithmetic mean of the two input prices, and
`divergenceBps` is exactly `round(|priceA − priceB| / mean × 10000)`. -/
theorem claim2_two_source_mean
    (coinGecko : List (String × CGQuote)) (deFiLlama : List (String × DLQuote))
    (asset : String) (cg : CGQuote) (dl : DLQuote)
    (hcg : List.lookup asset coinGecko = some cg)
    (hdl : List.lookup asset deFiLlama = some dl)
    (hcgPos : 0 < cg.price) (hdlPos : 0 < dl.price) :
    ∃ r, crossVerify coinGecko deFiLlama asset = some r ∧
      r.price = (cg.price + dl.price) / 2 ∧
      r.divergenceBps =
        jsRound (|cg.price - dl.price| / ((cg.price + dl.price) / 2) * 10000) :=
  ⟨_, crossVerify_both hcg hdl, rfl, rfl⟩

/-- witness for C2 at the design document's end-to-end example
(67000 and 67005) -/
theorem claim2_two_source_mean_witness :
    List.lookup "BTC" [("BTC", cgQuoteW)] = some cgQuoteW ∧
    List.lookup "BTC" [("BTC", dlQuoteW)] = some dlQuoteW ∧
    0 < cgQuoteW.price ∧ 0 < dlQuoteW.price ∧
    (∃ r, crossVerify [("BTC", cgQuoteW)] [("BTC", dlQuoteW)] "BTC" = some r ∧
      r.price = (cgQuoteW.price + dlQuoteW.price) / 2 ∧
      r.divergenceBps =
        jsRound (|cgQuoteW.price - dlQuoteW.price| /
          ((cgQuoteW.price + dlQuoteW.price) / 2) * 10000)) :=
  ⟨rfl, rfl, by decide, by decide,
    claim2_two_source_mean [("BTC", cgQuoteW)] [("BTC", dlQuoteW)] "BTC"
      cgQuoteW dlQuoteW rfl rfl (by decide) (by decide)⟩

/-- a CoinGecko quote that does supply a 24h change and a market cap, used to
refute the carry-through part of C7 -/
def cgRichQuote : CGQuote :=
  { price := 100, change24h := some (-2), marketCap := some 1320000000000,
    source := "coingecko" }

/-- C7 counterexample: with CoinGecko as the only contributing source and
that source supplying both a 24h change and a market cap, the single-source
result of `crossVerify` carries neither — refuting the claim that they are
"carried through from the contributing source whenever that source supplied
them". -/
theorem claim7_counterexample :
    cgRichQuote.change24h.isSome = true ∧ cgRichQuote.marketCap.isSome = true ∧
    ∃ r, crossVerify [("BTC", cgRichQuote)] [] "BTC" = some r ∧
      r.sources = 1 ∧ r.change24h = none ∧ r.marketCap = none :=
  ⟨rfl, rfl, _, rfl, rfl, rfl, rfl⟩

/-- C7 (amended): for every ticker for which exactly one price adapter
produced a quote, `crossVerify` returns merged price = that quote's price,
`sources` 1, the contributing source's name, confidence 60, `divergenceBps`
0 and no warning; the 24h change and market cap fields are left absent in
single-source results, even when the contributing source supplied them. -/
theorem claim7_single_source
    (coinGecko : List (String × CGQuote)) (deFiLlama : List (String × DLQuote))
    (asset : String)
    (h : (∃ cg, List.lookup asset coinGecko = some cg ∧
            List.lookup asset deFiLlama = none) ∨
         (List.lookup asset coinGecko = none ∧
            ∃ dl, List.lookup asset deFiLlama = some dl)) :
    ∃ r, crossVerify coinGecko deFiLlama asset = some r ∧
      r.sources = 1 ∧ r.confidence = 60 ∧ r.divergenceBps = 0 ∧
      r.warning = none ∧ r.change24h = none ∧ r.marketCap = none ∧
      ((∃ cg, List.lookup asset coinGecko = some cg ∧
          r.price = cg.price ∧ r.sourceNames = ["coingecko"]) ∨
       (∃ dl, List.lookup asset deFiLlama = some dl ∧
          r.price = dl.price ∧ r.sourceNames = ["defillama"])) := by
  rcases h with ⟨cg, hcg, hdl⟩ | ⟨hcg, dl, hdl⟩
  · have he : crossVerify coinGecko deFiLlama asset =
        some { price := cg.price, prices := none, sources := 1,
               sourceNames := ["coingecko"], confidence := 60,
               divergenceBps := 0, change24h := none, marketCap := none,
               warning := none } := by
      unfold crossVerify
      rw [hcg, hdl]
    exact ⟨_, he, rfl, rfl, rfl, rfl, rfl, rfl, Or.inl ⟨cg, hcg, rfl, rfl⟩⟩
  · have he : crossVerify coinGecko deFiLlama asset =
        some { price := dl.price, prices := none, sources := 1,
               sourceNames := ["defillama"], confidence := 60,
               divergenceBps := 0, change24h := none, marketCap := none,
               warning := none } := by
      unfold crossVerify
      rw [hcg, hdl]
    exact ⟨_, he, rfl, rfl, rfl, rfl, rfl, rfl, Or.inr ⟨dl, hdl, rfl, rfl⟩⟩

/-- witness for the amended C7 at a concrete CoinGecko-only input -/
theorem claim7_single_source_witness :
    ((∃ cg, List.lookup "BTC" [("BTC", cgRichQuote)] = some cg ∧
        List.lookup "BTC" ([] : List (String × DLQuote)) = none) ∨
     (List.lookup "BTC" [("BTC", cgRichQuote)] = none ∧
        ∃ dl, List.lookup "BTC" ([] : List (String × DLQuote)) = some dl)) ∧
    (∃ r, crossVerify [("BTC", cgRichQuote)] [] "BTC" = some r ∧
      r.sources = 1 ∧ r.confidence = 60 ∧ r.divergenceBps = 0 ∧
      r.warning = none ∧ r.change24h = none ∧ r.marketCap = none ∧
      ((∃ cg, List.lookup "BTC" [("BTC", cgRichQuote)] = some cg ∧
          r.price = cg.price ∧ r.sourceNames = ["coingecko"]) ∨
       (∃ dl, List.lookup "BTC" ([] : List (String × DLQuote)) = some dl ∧
          r.price = dl.price ∧ r.sourceNames = ["defillama"]))) :=
  ⟨Or.inl ⟨cgRichQuote, rfl, rfl⟩,
    claim7_single_source [("BTC", cgRichQuote)] [] "BTC"
      (Or.inl ⟨cgRichQuote, rfl, rfl⟩)⟩

/-!
Embedding of `computeDataHash` from the server file:
`'0x' + sha256(JSON.stringify({asset, price, sources, timestamp}))` in hex.
SHA-256 is implemented over byte lists (`ℕ` values below 256) with 32-bit
words as `ℕ` reduced modulo `2^32`.  The only abstraction is the rendering
of the JS `price` number inside the JSON payload: JS floating-point decimal
formatting is replaced by an exact rendering of the rational (`jsonNumber`);
this affects which byte string is hashed but not the purity, determinism or
`0x` prefix that C3 is about.
-/

/-- word value truncated to 32 bits -/
def w32 (n : ℕ) : ℕ := n % 4294967296

/-- rotate a 32-bit word right by `n` -/
def rotr (n x : ℕ) : ℕ := w32 ((x >>> n) ||| (x <<< (32 - n)))

/-- SHA-256 `Ch` function -/
def sha2Ch (x y z : ℕ) : ℕ := (x &&& y) ^^^ ((x ^^^ 4294967295) &&& z)

/-- SHA-256 `Maj` function -/
def sha2Maj (x y z : ℕ) : ℕ := (x &&& y) ^^^ (x &&& z) ^^^ (y &&& z)

/-- SHA-256 Σ0 -/
def bigSigma0 (x : ℕ) : ℕ := rotr 2 x ^^^ rotr 13 x ^^^ rotr 22 x

/-- SHA-256 Σ1 -/
def bigSigma1 (x : ℕ) : ℕ := rotr 6 x ^^^ rotr 11 x ^^^ rotr 25 x

/-- SHA-256 σ0 -/
def smallSigma0 (x : ℕ) : ℕ := rotr 7 x ^^^ rotr 18 x ^^^ (x >>> 3)

/-- SHA-256 σ1 -/
def smallSigma1 (x : ℕ) : ℕ := rotr 17 x ^^^ rotr 19 x ^^^ (x >>> 10)

/-- SHA-256 round constants (FIPS 180-4, written in decimal) -/
def sha2K : List ℕ :=
  [1116352408, 1899447441, 3049323471, 3921009573,
   961987163, 1508970993, 2453635748, 2870763221,
   3624381080, 310598401, 607225278, 1426881987,
   1925078388, 2162078206, 2614888103, 3248222580,
   3835390401, 4022224774, 264347078, 604807628,
   770255983, 1249150122, 1555081692, 1996064986,
   2554220882, 2821834349, 2952996808, 3210313671,
   3336571891, 3584528711, 113926993, 338241895,
   666307205, 773529912, 1294757372, 1396182291,
   1695183700, 1986661051, 2177026350, 2456956037,
   2730485921, 2820302411, 3259730800, 3345764771,
   3516065817, 3600352804, 4094571909, 275423344,
   430227734, 506948616, 659060556, 883997877,
   958139571, 1322822218, 1537002063, 1747873779,
   1955562222, 2024104815, 2227730452, 2361852424,
   2428436474, 2756734187, 3204031479, 3329325298]

/-- SHA-256 initial hash state (FIPS 180-4, written in decimal) -/
def sha2H0 : List ℕ :=
  [1779033703, 3144134277, 1013904242, 2773480762,
   1359893119, 2600822924, 528734635, 1541459225]

/-- big-endian byte rendering of `n` on `k` bytes -/
def toBytesBE (k n : ℕ) : List ℕ :=
  (List.range k).map (fun i => (n >>> (8 * (k - 1 - i))) % 256)

/-- SHA-256 message padding: append `0x80`, zeros up to 56 mod 64, then the
bit length on 8 big-endian bytes -/
def sha2Pad (msg : List ℕ) : List ℕ :=
  let zeros := (119 - (msg.length % 64)) % 64
  msg ++ 128 :: List.replicate zeros 0 ++ toBytesBE 8 (8 * msg.length)

/-- group bytes into big-endian 32-bit words -/
def bytesToWords : List ℕ → List ℕ
  | b0 :: b1 :: b2 :: b3 :: rest =>
      (((b0 * 256 + b1) * 256 + b2) * 256 + b3) :: bytesToWords rest
  | _ => []

/-- split a word list into 16-word blocks -/
def blocks16 : List ℕ → List (List ℕ)
  | [] => []
  | w :: ws => ((w :: ws).take 16) :: blocks16 ((w :: ws).drop 16)
termination_by l => l.length
decreasing_by simp [List.length_drop]; omega

/-- extend a 16-word block to the 64-word message schedule -/
def msgSchedule (block : List ℕ) : List ℕ :=
  ((List.range 48).foldl
    (fun w _ =>
      w.push (w32 (smallSigma1 (w.getD (w.size - 2) 0) +
        w.getD (w.size - 7) 0 + smallSigma0 (w.getD (w.size - 15) 0) +
        w.getD (w.size - 16) 0)))
    block.toArray).toList

/-- one SHA-256 compression step over a 16-word block -/
def sha2Compress (h : List ℕ) (block : List ℕ) : List ℕ :=
  let ws := msgSchedule block
  let init := (h.getD 0 0, h.getD 1 0, h.getD 2 0, h.getD 3 0,
               h.getD 4 0, h.getD 5 0, h.getD 6 0, h.getD 7 0)
  let fin := (sha2K.zip ws).foldl
    (fun st kw =>
      match st, kw with
      | (a, b, c, d, e, f, g, hh), (k, w) =>
        let t1 := w32 (hh + bigSigma1 e + sha2Ch e f g + k + w)
        let t2 := w32 (bigSigma0 a + sha2Maj a b c)
        (w32 (t1 + t2), a, b, c, w32 (d + t1), e, f, g))
    init
  match fin with
  | (a, b, c, d, e, f, g, hh) =>
    [w32 (h.getD 0 0 + a), w32 (h.getD 1 0 + b), w32 (h.getD 2 0 + c),
     w32 (h.getD 3 0 + d), w32 (h.getD 4 0 + e), w32 (h.getD 5 0 + f),
     w32 (h.getD 6 0 + g), w32 (h.getD 7 0 + hh)]

/-- full SHA-256 state for a byte message -/
def sha256Words (msg : List ℕ) : List ℕ :=
  (blocks16 (bytesToWords (sha2Pad msg))).foldl sha2Compress sha2H0

/-- lowercase hex digit: `0`–`9` then `a`–`f` -/
def hexDigit (n : ℕ) : Char :=
  Char.ofNat (if n < 10 then 48 + n else 87 + n)

/-- render a 32-bit word as 8 hex characters -/
def toHex8 (n : ℕ) : String :=
  String.mk ((List.range 8).map (fun i => hexDigit ((n >>> (4 * (7 - i))) % 16)))

/-- hex digest of a byte message, as `crypto`'s `digest('hex')` -/
def sha256Hex (msg : List ℕ) : String :=
  String.join ((sha256Words msg).map toHex8)

/-- UTF-8 bytes of one character -/
def utf8Char (c : Char) : List ℕ :=
  let n := c.toNat
  if n < 128 then [n]
  else if n < 2048 then [192 + n / 64, 128 + n % 64]
  else if n < 65536 then [224 + n / 4096, 128 + (n / 64) % 64, 128 + n % 64]
  else [240 + n / 262144, 128 + (n / 4096) % 64, 128 + (n / 64) % 64,
        128 + n % 64]

/-- UTF-8 bytes of a string (Node hashes the UTF-8 encoding of the payload) -/
def utf8Bytes (s : String) : List ℕ := (s.toList.map utf8Char).join

/-- JSON escaping of one character, as `JSON.stringify` performs it -/
def jsonEscapeChar (c : Char) : String :=
  if c = '\"' then "\\\""
  else if c = '\\' then "\\\\"
  else if c = Char.ofNat 8 then "\\b"
  else if c = Char.ofNat 9 then "\\t"
  else if c = Char.ofNat 10 then "\\n"
  else if c = Char.ofNat 12 then "\\f"
  else if c = Char.ofNat 13 then "\\r"
  else if c.toNat < 32 then
    "\\u00" ++ String.mk [hexDigit (c.toNat / 16), hexDigit (c.toNat % 16)]
  else String.mk [c]

/-- JSON rendering of a string value -/
def jsonString (s : String) : String :=
  "\"" ++ String.join (s.toList.map jsonEscapeChar) ++ "\""

/-- rendering of the JS number in the payload; exact rational rendering
stands in for JS float decimal formatting (see the section comment) -/
def jsonNumber (q : ℚ) : String :=
  if q.den = 1 then toString q.num
  else toString q.num ++ "/" ++ toString q.den

/-- JSON rendering of an array of strings -/
def jsonStringArray (l : List String) : String :=
  "[" ++ String.intercalate "," (l.map jsonString) ++ "]"

/-- the serialized payload `JSON.stringify({asset, price, sources,
timestamp})` with JS object-literal key order -/
def payloadJson (asset : String) (price : ℚ) (sources : List String)
    (timestamp : ℤ) : String :=
  "\x7b\"asset\":" ++ jsonString asset ++
  ",\"price\":" ++ jsonNumber price ++
  ",\"sources\":" ++ jsonStringArray sources ++
  ",\"timestamp\":" ++ toString timestamp ++ "\x7d"

/-- Embedding of `computeDataHash(asset, price, sources, timestamp)` from the
server file: `'0x' + sha256 hex digest of the JSON payload`. -/
def computeDataHash (asset : String) (price : ℚ) (sources : List String)
    (timestamp : ℤ) : String :=
  "0x" ++ sha256Hex (utf8Bytes (payloadJson asset price sources timestamp))

/-- C3: `computeDataHash` is a pure deterministic function of exactly its
four inputs — any two calls with identical ticker, merged price, ordered
source list and snapshot timestamp produce the identical hash string, and
that string is prefixed with `0x`. -/
theorem claim3_hash_deterministic
    (a a' : String) (p p' : ℚ) (s s' : List String) (t t' : ℤ)
    (ha : a = a') (hp : p = p') (hs : s = s') (ht : t = t') :
    computeDataHash a p s t = computeDataHash a' p' s' t' ∧
    ∃ tail, computeDataHash a p s t = "0x" ++ tail := by
  subst ha hp hs ht
  exact ⟨rfl, _, rfl⟩

/-- witness for C3 at a concrete snapshot data point -/
theorem claim3_hash_deterministic_witness :
    ("BTC" : String) = "BTC" ∧ (67389 : ℚ) = 67389 ∧
    (["coingecko", "defillama"] : List String) = ["coingecko", "defillama"] ∧
    (1700000000 : ℤ) = 1700000000 ∧
    (computeDataHash "BTC" 67389 ["coingecko", "defillama"] 1700000000 =
      computeDataHash "BTC" 67389 ["coingecko", "defillama"] 1700000000 ∧
    ∃ tail, computeDataHash "BTC" 67389 ["coingecko", "defillama"] 1700000000 =
      "0x" ++ tail) :=
  ⟨rfl, rfl, rfl, rfl,
    claim3_hash_deterministic "BTC" "BTC" 67389 67389
      ["coingecko", "defillama"] ["coingecko", "defillama"]
      1700000000 1700000000 rfl rfl rfl rfl⟩

/-!
Provider adapters from `src/sources.js`.  A call to the promise-based
`fetch(url)` either resolves with parsed JSON or rejects (network error, or
JSON parse error); each adapter wraps its whole body in `try/catch`, so a
rejection — and any exception thrown while normalising an unexpected
payload shape, which we fold into `parseError` — lands in the `catch`
branch and degrades to `{}` / `null`.  The settled outcome of one fetch is
the `Fetched` argument below; the adapters are total functions of it, which
is exactly the "adapters never raise" contract.
-/

/-- settled outcome of one `fetch(url)` call -/
inductive Fetched (α : Type) where
  | ok (data : α)
  | netError
  | parseError
deriving DecidableEq, Repr

/-- one entry of the CoinGecko `simple/price` response for one gecko id -/
structure GeckoEntry where
  usd : ℚ
  usd24hChange : Option ℚ
  usdMarketCap : Option ℚ
deriving DecidableEq, Repr

/-- the static `ids` ticker → CoinGecko-id table of `fetchCoinGecko` -/
def geckoIdsTable : List (String × String) :=
  [("BTC", "bitcoin"), ("ETH", "ethereum"), ("SOL", "solana"),
   ("BNB", "binancecoin"), ("XRP", "ripple"), ("ADA", "cardano"),
   ("AVAX", "avalanche-2"), ("DOGE", "dogecoin"), ("DOT", "polkadot"),
   ("MATIC", "matic-network"), ("LINK", "chainlink"), ("UNI", "uniswap"),
   ("AAVE", "aave"), ("ARB", "arbitrum"), ("OP", "optimism"),
   ("BASE", "base"), ("USDT", "tether"), ("USDC", "usd-coin")]

/-- Embedding of `fetchCoinGecko(assets)`: unmapped tickers are skipped, an
empty id list short-circuits to `{}` before any fetch, and the result loop
walks the full `ids` table keeping the entries present in the response.
Both error outcomes take the `catch` branch and return `{}`. -/
def fetchCoinGecko (assets : List String)
    (r : Fetched (List (String × GeckoEntry))) : List (String × CGQuote) :=
  let geckoIds := assets.filterMap (fun a => List.lookup a geckoIdsTable)
  if geckoIds.isEmpty then []
  else
    match r with
    | .ok data =>
        geckoIdsTable.filterMap (fun p =>
          (List.lookup p.2 data).map (fun e =>
            (p.1, { price := e.usd, change24h := e.usd24hChange,
                    marketCap := e.usdMarketCap,
                    source := "coingecko" : CGQuote })))
    | .netError => []
    | .parseError => []

/-- one entry of the DeFiLlama `prices/current` response for one llama id -/
structure LlamaEntry where
  price : ℚ
  confidence : Option ℚ
deriving DecidableEq, Repr

/-- the DeFiLlama response shape: a possibly missing `coins` object -/
structure LlamaData where
  coins : Option (List (String × LlamaEntry))
deriving DecidableEq, Repr

/-- the static `llamaIds` ticker → DeFiLlama-id table of `fetchDeFiLlama` -/
def llamaIdsTable : List (String × String) :=
  [("BTC", "coingecko:bitcoin"), ("ETH", "coingecko:ethereum"),
   ("SOL", "coingecko:solana"), ("BNB", "coingecko:binancecoin"),
   ("XRP", "coingecko:ripple"), ("ADA", "coingecko:cardano"),
   ("AVAX", "coingecko:avalanche-2"), ("DOGE", "coingecko:dogecoin"),
   ("LINK", "coingecko:chainlink"), ("UNI", "coingecko:uniswap"),
   ("AAVE", "coingecko:aave"), ("ARB", "coingecko:arbitrum"),
   ("OP", "coingecko:optimism")]

/-- Embedding of `fetchDeFiLlama(assets)`.  The JS `confidence || 0.99`
falls back to `0.99` when the upstream confidence is absent or `0` (both
falsy).  Error outcomes return `{}`. -/
def fetchDeFiLlama (assets : List String) (r : Fetched LlamaData) :
    List (String × DLQuote) :=
  let coins := assets.filterMap (fun a => List.lookup a llamaIdsTable)
  if coins.isEmpty then []
  else
    match r with
    | .ok data =>
        match data.coins with
        | none => []
        | some cs =>
            llamaIdsTable.filterMap (fun p =>
              (List.lookup p.2 cs).map (fun e =>
                (p.1, { price := e.price,
                        confidence :=
                          match e.confidence with
                          | some c => if c = 0 then 99/100 else c
                          | none => 99/100,
                        source := "defillama" : DLQuote })))
    | .netError => []
    | .parseError => []

/-- the parsed first element of the alternative.me `fng` response -/
structure FngData where
  value : ℤ
  valueClassification : String
  timestamp : ℤ
deriving DecidableEq, Repr

/-- the sentiment block built by `fetchFearGreed` -/
structure FearGreed where
  value : ℤ
  label : String
  timestamp : ℤ
  source : String
deriving DecidableEq, Repr

/-- Embedding of `fetchFearGreed()`: error outcomes degrade to `null`. -/
def fetchFearGreed (r : Fetched FngData) : Option FearGreed :=
  match r with
  | .ok d => some { value := d.value, label := d.valueClassification,
                    timestamp := d.timestamp, source := "alternative.me" }
  | .netError => none
  | .parseError => none

/-- one chain row of the DeFiLlama `v2/chains` response -/
structure ChainRaw where
  name : String
  tvl : Option ℚ
deriving DecidableEq, Repr

/-- one chain row kept by `fetchTVL` -/
structure ChainEntry where
  chain : String
  tvl : Option ℚ
deriving DecidableEq, Repr

/-- the TVL block built by `fetchTVL` -/
structure TvlResult where
  chains : List ChainEntry
  source : String
deriving DecidableEq, Repr

/-- stable insertion into a list sorted descending by `key` -/
def insertDescBy {α : Type} (key : α → ℚ) (x : α) : List α → List α
  | [] => [x]
  | y :: ys => if key y ≤ key x then x :: y :: ys else y :: insertDescBy key x ys

/-- stable sort descending by `key`, modelling the JS
`sort((a, b) => keyB - keyA)` comparator -/
def sortDescBy {α : Type} (key : α → ℚ) : List α → List α
  | [] => []
  | x :: xs => insertDescBy key x (sortDescBy key xs)

/-- Embedding of `fetchTVL()`: sort all chains descending by `tvl || 0`,
keep the top 15; error outcomes degrade to `null`. -/
def fetchTVL (r : Fetched (List ChainRaw)) : Option TvlResult :=
  match r with
  | .ok data =>
      some { chains := ((sortDescBy (fun c => c.tvl.getD 0) data).take 15).map
               (fun c => { chain := c.name, tvl := c.tvl }),
             source := "defillama" }
  | .netError => none
  | .parseError => none

/-- one pegged asset of the DeFiLlama stablecoins response; `circulating`
models the optional chain `circulating?.peggedUSD` -/
structure PeggedRaw where
  name : String
  symbol : String
  circulating : Option ℚ
  price : Option ℚ
deriving DecidableEq, Repr

/-- the stablecoins response shape -/
structure PeggedData where
  peggedAssets : List PeggedRaw
deriving DecidableEq, Repr

/-- one stablecoin row kept by `fetchStablecoins` -/
structure StableEntry where
  name : String
  symbol : String
  circulating : ℚ
  price : Option ℚ
deriving DecidableEq, Repr

/-- the stablecoin block built by `fetchStablecoins` -/
structure StableResult where
  stablecoins : List StableEntry
  source : String
deriving DecidableEq, Repr

/-- Embedding of `fetchStablecoins()`: sort descending by
`circulating?.peggedUSD || 0`, keep the top 10; error outcomes degrade to
`null`. -/
def fetchStablecoins (r : Fetched PeggedData) : Option StableResult :=
  match r with
  | .ok data =>
      some { stablecoins :=
               ((sortDescBy (fun s => s.circulating.getD 0)
                   data.peggedAssets).take 10).map
                 (fun s => { name := s.name, symbol := s.symbol,
                             circulating := s.circulating.getD 0,
                             price := s.price }),
             source := "defillama" }
  | .netError => none
  | .parseError => none

/-- the parsed etherscan gas-oracle response -/
structure GasRaw where
  status : String
  safeGasPrice : ℤ
  proposeGasPrice : ℤ
  fastGasPrice : ℤ
deriving DecidableEq, Repr

/-- the gas block built by `fetchGas` -/
structure GasResult where
  low : ℤ
  standard : ℤ
  fast : ℤ
  source : String
deriving DecidableEq, Repr

/-- Embedding of `fetchGas()`: a non-success upstream status (`status` other
than `'1'`) yields `null`, as do both error outcomes. -/
def fetchGas (r : Fetched GasRaw) : Option GasResult :=
  match r with
  | .ok d =>
      if d.status = "1" then
        some { low := d.safeGasPrice, standard := d.proposeGasPrice,
               fast := d.fastGasPrice, source := "etherscan" }
      else none
  | .netError => none
  | .parseError => none

/-- the full aggregated payload returned by `getFullSnapshot` -/
structure Snapshot where
  timestamp : ℤ
  iso : String
  oracle : String
  verification : String
  prices : List (String × VerifiedPrice)
  fearGreed : Option FearGreed
  tvl : Option TvlResult
  stablecoins : Option StableResult
  gas : Option GasResult
deriving DecidableEq, Repr

/-- the default tracked-asset list of `getFullSnapshot` -/
def defaultAssets : List String :=
  ["BTC", "ETH", "SOL", "BNB", "XRP", "LINK", "AAVE", "ARB", "OP", "UNI"]

/-- Embedding of `getFullSnapshot(assets)`.  The six adapter fetches are
issued concurrently and `Promise.all` is awaited; since no adapter promise
ever rejects (each catches internally), the cycle always receives all six
settled outcomes, which are the six `Fetched` arguments here.  The two
clock reads (`Date.now()/1000` and `new Date().toISOString()`) are the
`nowSec` / `nowIso` arguments. -/
def getFullSnapshot (assets : List String)
    (rCG : Fetched (List (String × GeckoEntry))) (rDL : Fetched LlamaData)
    (rFG : Fetched FngData) (rTVL : Fetched (List ChainRaw))
    (rSC : Fetched PeggedData) (rGas : Fetched GasRaw)
    (nowSec : ℤ) (nowIso : String) : Snapshot :=
  let coinGecko := fetchCoinGecko assets rCG
  let deFiLlama := fetchDeFiLlama assets rDL
  { timestamp := nowSec,
    iso := nowIso,
    oracle := "MoltOracle v1.0.0",
    verification := "cross-sourced",
    prices := assets.filterMap (fun asset =>
      (crossVerify coinGecko deFiLlama asset).map (fun v => (asset, v))),
    fearGreed := fetchFearGreed rFG,
    tvl := fetchTVL rTVL,
    stablecoins := fetchStablecoins rSC,
    gas := fetchGas rGas }

/-!
Server layer (the API server file): the snapshot cache, the per-IP rate
limiter and the route handlers.  The module-level mutable bindings
(`cache`, `cacheTime`, `rateLimits`) are threaded through as explicit
state.  Crucially for C6, in JS the handlers receive the cached `Snapshot`
object *by reference*, so an assignment such as `info.dataHash = …`
mutates the object the cache itself holds; the embedding mirrors this by
returning an updated cache slot holding the mutated snapshot.
-/

/-- the cache TTL in milliseconds (`CACHE_TTL = 60000`) -/
def CACHE_TTL : ℤ := 60000

/-- the rate-limit window in milliseconds (`window = 3600000`) -/
def rateWindowMs : ℤ := 3600000

/-- the module-level `cache` / `cacheTime` pair of the server file -/
structure CacheState where
  cache : Option Snapshot
  cacheTime : ℤ
deriving DecidableEq, Repr

/-- Embedding of `getCachedSnapshot()`: serve the cached snapshot while its
age is strictly below the TTL, otherwise run one aggregation cycle (whose
result is the `fresh` argument) and replace both cache slots.  The returned
`Bool` records whether `getFullSnapshot` was run. -/
def getCachedSnapshot (st : CacheState) (now : ℤ) (fresh : Snapshot) :
    Snapshot × CacheState × Bool :=
  match st.cache with
  | some c =>
      if now - st.cacheTime < CACHE_TTL then (c, st, false)
      else (fresh, ⟨some fresh, now⟩, true)
  | none => (fresh, ⟨some fresh, now⟩, true)

/-- Embedding of `checkRateLimit(ip)` for one client: `record` is that
client's stored timestamp list (a missing map entry is `[]`).  Returns the
admit decision and the client's stored list afterwards; note that the
pruned list is stored back even when the call is rejected, and the
rejected call itself is not recorded. -/
def checkRateLimit (limit : ℕ) (record : List ℤ) (now : ℤ) :
    Bool × List ℤ :=
  let calls := record.filter (fun t => now - rateWindowMs < t)
  if limit ≤ calls.length then (false, calls) else (true, calls ++ [now])

/-- the per-asset hash attachment loop of the `GET /snapshot` handler;
because `info` aliases the cached record, this is a mutation of the cached
snapshot -/
def attachHashTo (ts : ℤ) (p : String × VerifiedPrice) :
    String × VerifiedPrice :=
  (p.1,
   { p.2 with
     dataHash := some (computeDataHash p.1 p.2.price p.2.sourceNames ts) })

/-- the whole attachment loop of the `GET /snapshot` handler over the
cached snapshot's price mapping -/
def attachSnapshotHashes (s : Snapshot) : Snapshot :=
  { s with prices := s.prices.map (attachHashTo s.timestamp) }

/-- Embedding of the `GET /snapshot` handler body after rate limiting:
fetch the cached snapshot, attach a `dataHash` to every price record in
place, and serve it.  The mutated snapshot remains in the cache slot. -/
def handleSnapshot (st : CacheState) (now : ℤ) (fresh : Snapshot) :
    Snapshot × CacheState :=
  let r := getCachedSnapshot st now fresh
  let data := attachSnapshotHashes r.1
  (data, { cache := some data, cacheTime := r.2.1.cacheTime })

/-- the body of a `GET /prices` response:
`{ timestamp, iso, prices }` taken directly from the cached snapshot -/
structure PricesResponse where
  timestamp : ℤ
  iso : String
  prices : List (String × VerifiedPrice)
deriving DecidableEq, Repr

/-- Embedding of the `GET /prices` handler body after rate limiting: serve
timestamp, iso and the price mapping exactly as currently stored in the
cached snapshot, with no hash attachment of its own. -/
def handlePrices (st : CacheState) (now : ℤ) (fresh : Snapshot) :
    PricesResponse × CacheState :=
  let r := getCachedSnapshot st now fresh
  ({ timestamp := r.1.timestamp, iso := r.1.iso, prices := r.1.prices },
   r.2.1)

/-- a `GET /price/:asset` response: either HTTP 404 with an error body, or
HTTP 200 with the (hash-attached) price record -/
inductive PriceResponse where
  | notFound (status : ℕ) (error : String)
  | ok (status : ℕ) (body : VerifiedPrice)
deriving DecidableEq, Repr

/-- Embedding of the `GET /price/:asset` handler body after rate limiting:
uppercase the route parameter, look it up in the cached snapshot's price
mapping, answer 404 when absent; when present, attach `dataHash`, `asset`,
`timestamp` and `iso` to the record in place (again mutating the cached
snapshot) and serve it. -/
def handlePriceAsset (st : CacheState) (now : ℤ) (fresh : Snapshot)
    (param : String) : PriceResponse × CacheState :=
  let asset := param.toUpper
  let r := getCachedSnapshot st now fresh
  let data := r.1
  match List.lookup asset data.prices with
  | none => (.notFound 404 ("Asset " ++ asset ++ " not tracked"), r.2.1)
  | some price =>
      let price' := { price with
        dataHash := some (computeDataHash asset price.price price.sourceNames
          data.timestamp),
        asset := some asset,
        timestamp := some data.timestamp,
        iso := some data.iso }
      let data' := { data with prices := data.prices.map (fun p =>
        if p.1 = asset then (p.1, price') else p) }
      (.ok 200 price', { cache := some data', cacheTime := r.2.1.cacheTime })

/-- C4: `getCachedSnapshot` returns the cached snapshot unchanged, without
running an aggregation cycle, whenever a snapshot is cached and its age is
strictly below the 60-second TTL; when no snapshot is cached or the age has
reached the TTL it runs one cycle and replaces both cache slots with the
new result and its construction time before returning it. -/
theorem claim4_cache_ttl (st : CacheState) (now : ℤ) (fresh : Snapshot) :
    (∀ c, st.cache = some c → now - st.cacheTime < CACHE_TTL →
      getCachedSnapshot st now fresh = (c, st, false)) ∧
    ((st.cache = none ∨ CACHE_TTL ≤ now - st.cacheTime) →
      getCachedSnapshot st now fresh = (fresh, ⟨some fresh, now⟩, true)) := by
  constructor
  · intro c hc hlt
    simp [getCachedSnapshot, hc, hlt]
  · intro h
    cases hcache : st.cache with
    | none => simp [getCachedSnapshot, hcache]
    | some c =>
        rcases h with h | h
        · rw [hcache] at h; cases h
        · have hge : ¬ (now - st.cacheTime < CACHE_TTL) := by omega
          simp [getCachedSnapshot, hcache, hge]

/-- a minimal well-formed snapshot used by the cache witnesses -/
def snapA : Snapshot :=
  { timestamp := 100, iso := "2026-01-01T00:00:00.000Z",
    oracle := "MoltOracle v1.0.0", verification := "cross-sourced",
    prices := [], fearGreed := none, tvl := none, stablecoins := none,
    gas := none }

/-- a second snapshot, the result of the aggregation cycle in the
cache witnesses -/
def snapB : Snapshot :=
  { timestamp := 200, iso := "2026-01-01T00:02:00.000Z",
    oracle := "MoltOracle v1.0.0", verification := "cross-sourced",
    prices := [], fearGreed := none, tvl := none, stablecoins := none,
    gas := none }

/-- witness for C4: a fresh-cache hit at age 1 second and a cold-cache
refresh, both at concrete states -/
theorem claim4_cache_ttl_witness :
    ((⟨some snapA, 100000⟩ : CacheState).cache = some snapA ∧
     (101000 : ℤ) - (⟨some snapA, 100000⟩ : CacheState).cacheTime <
       CACHE_TTL ∧
     getCachedSnapshot ⟨some snapA, 100000⟩ 101000 snapB =
       (snapA, ⟨some snapA, 100000⟩, false)) ∧
    ((⟨none, 0⟩ : CacheState).cache = none ∧
     getCachedSnapshot ⟨none, 0⟩ 101000 snapB =
       (snapB, ⟨some snapB, 101000⟩, true)) :=
  ⟨⟨rfl, by decide,
    (claim4_cache_ttl ⟨some snapA, 100000⟩ 101000 snapB).1 snapA rfl
      (by decide)⟩,
   ⟨rfl,
    (claim4_cache_ttl ⟨none, 0⟩ 101000 snapB).2 (Or.inl rfl)⟩⟩

/-- C5: `checkRateLimit` first prunes the client's stored timestamps to
those still inside the trailing one-hour window; if at least `limit` remain
it rejects and stores only the pruned list (the rejected attempt is not
recorded), otherwise it appends the current time and admits.  Consequently
a client whose record holds exactly `limit` in-window admitted calls is
rejected, and a client all of whose recorded calls have aged out of the
window is admitted again. -/
theorem claim5_rate_limiter (limit : ℕ) (record : List ℤ) (now : ℤ) :
    (∀ t ∈ record.filter (fun t => now - rateWindowMs < t),
       now - rateWindowMs < t) ∧
    (∀ t ∈ record, ¬ (now - rateWindowMs < t) →
       t ∉ record.filter (fun t => now - rateWindowMs < t)) ∧
    (limit ≤ (record.filter (fun t => now - rateWindowMs < t)).length →
       checkRateLimit limit record now =
         (false, record.filter (fun t => now - rateWindowMs < t))) ∧
    ((record.filter (fun t => now - rateWindowMs < t)).length < limit →
       checkRateLimit limit record now =
         (true, record.filter (fun t => now - rateWindowMs < t) ++ [now])) ∧
    ((∀ t ∈ record, now - rateWindowMs < t) → record.length = limit →
       (checkRateLimit limit record now).1 = false) ∧
    ((∀ t ∈ record, t ≤ now - rateWindowMs) → 0 < limit →
       (checkRateLimit limit record now).1 = true) := by
  refine ⟨?_, ?_, ?_, ?_, ?_, ?_⟩
  · intro t ht
    simpa using (List.mem_filter.mp ht).2
  · intro t _ hout hin
    exact hout (by simpa using (List.mem_filter.mp hin).2)
  · intro hge
    simp [checkRateLimit, hge]
  · intro hlt
    have : ¬ limit ≤ (record.filter (fun t => now - rateWindowMs < t)).length :=
      by omega
    simp [checkRateLimit, this]
  · intro hall hlen
    have hfull : record.filter (fun t => now - rateWindowMs < t) = record := by
      apply List.filter_eq_self.mpr
      intro t ht
      simpa using hall t ht
    simp [checkRateLimit, hfull, hlen]
  · intro hnone hpos
    have hempty : record.filter (fun t => now - rateWindowMs < t) = [] := by
      apply List.filter_eq_nil.mpr
      intro t ht
      simpa using not_lt.mpr (hnone t ht)
    simp [checkRateLimit, hempty, Nat.not_le.mpr hpos]

/-- witness for C5: a client with quota 2, two in-window calls recorded and
a third call one second later (rejected), then the same record checked
after the window has fully elapsed (admitted) -/
theorem claim5_rate_limiter_witness :
    ((∀ t ∈ [(1000 : ℤ), 2000], (3000 : ℤ) - rateWindowMs < t) ∧
     ([(1000 : ℤ), 2000].length = 2) ∧
     (checkRateLimit 2 [1000, 2000] 3000).1 = false) ∧
    ((∀ t ∈ [(1000 : ℤ), 2000], t ≤ (3602000 : ℤ) - rateWindowMs) ∧
     (0 < 2) ∧
     (checkRateLimit 2 [1000, 2000] 3602000).1 = true) :=
  ⟨⟨by decide, rfl,
    (claim5_rate_limiter 2 [1000, 2000] 3000).2.2.2.2.1 (by decide) rfl⟩,
   ⟨by decide, by decide,
    (claim5_rate_limiter 2 [1000, 2000] 3602000).2.2.2.2.2 (by decide)
      (by decide)⟩⟩

/-- a cross-verified price record as it sits in a freshly built snapshot:
no `dataHash` attached -/
def priceRecW : VerifiedPrice :=
  { price := 67000, prices := none, sources := 1,
    sourceNames := ["coingecko"], confidence := 60, divergenceBps := 0,
    change24h := none, marketCap := none, warning := none }

/-- a freshly aggregated snapshot tracking one asset, used to exhibit the
hash-attachment leak of C6 -/
def snapBTC : Snapshot :=
  { timestamp := 1700000000, iso := "2023-11-14T22:13:20.000Z",
    oracle := "MoltOracle v1.0.0", verification := "cross-sourced",
    prices := [("BTC", priceRecW)], fearGreed := none, tvl := none,
    stablecoins := none, gas := none }

/-- C6 is violated by the code: serving `GET /snapshot` attaches `dataHash`
to the price records of the *shared cached* snapshot (the handler mutates
the cached object through the alias), so a later `GET /prices` inside the
same TTL window — which the claim and the design document say carries no
`dataHash` fields — serves the BTC record with the hash attached. -/
theorem claim6_prices_leaks_attached_hash :
    priceRecW.dataHash = none ∧
    (∃ vp,
      List.lookup "BTC"
        ((handlePrices (handleSnapshot ⟨none, 0⟩ 1000 snapBTC).2
            2000 snapBTC).1.prices) = some vp ∧
      vp.dataHash = some (computeDataHash "BTC" priceRecW.price
        priceRecW.sourceNames snapBTC.timestamp)) :=
  ⟨rfl, _, rfl, rfl⟩

/-- helper: the untracked asset appears nowhere in the snapshot's price
mapping built by `getFullSnapshot`'s reconciliation loop -/
lemma lookup_pricesOf_none {cg : List (String × CGQuote)}
    {dl : List (String × DLQuote)} {asset : String}
    (h : crossVerify cg dl asset = none) (l : List String) :
    List.lookup asset
      (l.filterMap (fun a => (crossVerify cg dl a).map (fun v => (a, v)))) =
      none := by
  induction l with
  | nil => rfl
  | cons b l ih =>
      cases hb : crossVerify cg dl b with
      | none => simpa [List.filterMap_cons, hb] using ih
      | some v =>
          rw [List.filterMap_cons, hb]
          dsimp only [Option.map_some']
          by_cases hab : asset = b
          · subst hab; rw [h] at hb; cases hb
          · rw [List.lookup_cons]
            have hbeq : (asset == b) = false := beq_eq_false_iff_ne.mpr hab
            rw [hbeq]
            exact ih

/-- helper: every record `crossVerify` does return has source count 1 or 2,
never 0 -/
lemma crossVerify_sources (cg : List (String × CGQuote))
    (dl : List (String × DLQuote)) (a : String) :
    ∀ r, crossVerify cg dl a = some r → r.sources = 1 ∨ r.sources = 2 := by
  intro r h
  unfold crossVerify at h
  cases hca : List.lookup a cg <;> cases hda : List.lookup a dl <;>
    rw [hca, hda] at h
  · cases h
  · cases h; left; rfl
  · cases h; left; rfl
  · cases h; right; rfl

/-- C8: when neither price adapter produced a quote for a ticker,
`crossVerify` returns an absent result (and whenever it does return a
record, the source count is 1 or 2, never 0); the ticker is then omitted
from the snapshot's price mapping; and the `GET /price/:asset` boundary
uppercases the requested asset before lookup and maps an absent asset to an
HTTP 404 not-found response naming the uppercased asset — not a server
error. -/
theorem claim8_untracked_not_found
    (coinGecko : List (String × CGQuote)) (deFiLlama : List (String × DLQuote))
    (asset : String) (assets : List String)
    (rCG : Fetched (List (String × GeckoEntry))) (rDL : Fetched LlamaData)
    (rFG : Fetched FngData) (rTVL : Fetched (List ChainRaw))
    (rSC : Fetched PeggedData) (rGas : Fetched GasRaw)
    (nowSec : ℤ) (nowIso : String)
    (st : CacheState) (now : ℤ) (fresh : Snapshot) (param : String)
    (hcg : List.lookup asset coinGecko = none)
    (hdl : List.lookup asset deFiLlama = none)
    (habs : crossVerify (fetchCoinGecko assets rCG) (fetchDeFiLlama assets rDL)
      asset = none)
    (hparam : List.lookup param.toUpper
      (getCachedSnapshot st now fresh).1.prices = none) :
    crossVerify coinGecko deFiLlama asset = none ∧
    (∀ a r, crossVerify coinGecko deFiLlama a = some r →
      r.sources = 1 ∨ r.sources = 2) ∧
    List.lookup asset
      (getFullSnapshot assets rCG rDL rFG rTVL rSC rGas nowSec nowIso).prices =
      none ∧
    (handlePriceAsset st now fresh param).1 =
      .notFound 404 ("Asset " ++ param.toUpper ++ " not tracked") := by
  refine ⟨?_, ?_, ?_, ?_⟩
  · unfold crossVerify
    rw [hcg, hdl]
  · intro a r h
    exact crossVerify_sources coinGecko deFiLlama a r h
  · exact lookup_pricesOf_none habs assets
  · simp only [handlePriceAsset, hparam]

/-- witness for C8: the spec's `UNKNOWN` ticker against empty adapter maps,
fully degraded adapter outcomes, and a request for an asset absent from the
cached snapshot -/
theorem claim8_untracked_not_found_witness :
    List.lookup "UNKNOWN" ([] : List (String × CGQuote)) = none ∧
    List.lookup "UNKNOWN" ([] : List (String × DLQuote)) = none ∧
    crossVerify (fetchCoinGecko defaultAssets .netError)
      (fetchDeFiLlama defaultAssets .netError) "UNKNOWN" = none ∧
    List.lookup "unknown".toUpper
      (getCachedSnapshot ⟨some snapA, 100000⟩ 101000 snapB).1.prices = none ∧
    (crossVerify [] [] "UNKNOWN" = none ∧
     (∀ a r, crossVerify ([] : List (String × CGQuote))
        ([] : List (String × DLQuote)) a = some r →
        r.sources = 1 ∨ r.sources = 2) ∧
     List.lookup "UNKNOWN"
       (getFullSnapshot defaultAssets .netError .netError .netError .netError
         .netError .netError 100 "x").prices = none ∧
     (handlePriceAsset ⟨some snapA, 100000⟩ 101000 snapB "unknown").1 =
       .notFound 404 ("Asset " ++ "unknown".toUpper ++ " not tracked")) :=
  ⟨rfl, rfl, rfl, rfl,
    claim8_untracked_not_found [] [] "UNKNOWN" defaultAssets
      .netError .netError .netError .netError .netError .netError 100 "x"
      ⟨some snapA, 100000⟩ 101000 snapB "unknown" rfl rfl rfl rfl⟩

/-- C9: for every adapter, a network failure, a parse failure, or (for the
gas adapter) a non-success upstream status degrades to an empty or null
result rather than an exception — the adapters are total functions of the
settled fetch outcome; and `getFullSnapshot` incorporates all six settled
outcomes, each snapshot field depending only on its own adapter's outcome,
so one adapter's failure neither aborts the cycle nor affects any other
adapter's contribution. -/
theorem claim9_failures_degrade_and_isolate
    (assets : List String)
    (rCG : Fetched (List (String × GeckoEntry))) (rDL : Fetched LlamaData)
    (rFG : Fetched FngData) (rTVL : Fetched (List ChainRaw))
    (rSC : Fetched PeggedData) (rGas : Fetched GasRaw)
    (nowSec : ℤ) (nowIso : String) (d : GasRaw) (hd : d.status ≠ "1") :
    (fetchCoinGecko assets .netError = [] ∧
     fetchCoinGecko assets .parseError = []) ∧
    (fetchDeFiLlama assets .netError = [] ∧
     fetchDeFiLlama assets .parseError = []) ∧
    (fetchFearGreed .netError = none ∧ fetchFearGreed .parseError = none) ∧
    (fetchTVL .netError = none ∧ fetchTVL .parseError = none) ∧
    (fetchStablecoins .netError = none ∧
     fetchStablecoins .parseError = none) ∧
    (fetchGas .netError = none ∧ fetchGas .parseError = none ∧
     fetchGas (.ok d) = none) ∧
    ((getFullSnapshot assets rCG rDL rFG rTVL rSC rGas nowSec
        nowIso).fearGreed = fetchFearGreed rFG ∧
     (getFullSnapshot assets rCG rDL rFG rTVL rSC rGas nowSec nowIso).tvl =
       fetchTVL rTVL ∧
     (getFullSnapshot assets rCG rDL rFG rTVL rSC rGas nowSec
        nowIso).stablecoins = fetchStablecoins rSC ∧
     (getFullSnapshot assets rCG rDL rFG rTVL rSC rGas nowSec nowIso).gas =
       fetchGas rGas ∧
     (getFullSnapshot assets rCG rDL rFG rTVL rSC rGas nowSec
        nowIso).prices =
       assets.filterMap (fun a =>
         (crossVerify (fetchCoinGecko assets rCG) (fetchDeFiLlama assets rDL)
             a).map (fun v => (a, v)))) := by
  refine ⟨⟨?_, ?_⟩, ⟨?_, ?_⟩, ⟨rfl, rfl⟩, ⟨rfl, rfl⟩, ⟨rfl, rfl⟩,
    ⟨rfl, rfl, ?_⟩, ⟨rfl, rfl, rfl, rfl, rfl⟩⟩
  · unfold fetchCoinGecko
    dsimp only
    exact ite_self []
  · unfold fetchCoinGecko
    dsimp only
    exact ite_self []
  · unfold fetchDeFiLlama
    dsimp only
    exact ite_self []
  · unfold fetchDeFiLlama
    dsimp only
    exact ite_self []
  · unfold fetchGas
    dsimp only
    rw [if_neg hd]

/-- a gas-oracle payload whose upstream status signals failure -/
def gasFailW : GasRaw :=
  { status := "0", safeGasPrice := 10, proposeGasPrice := 12,
    fastGasPrice := 15 }

/-- witness for C9 at concrete outcomes: every adapter degraded, plus the
non-success gas payload -/
theorem claim9_failures_degrade_and_isolate_witness :
    gasFailW.status ≠ "1" ∧
    ((fetchCoinGecko defaultAssets .netError = [] ∧
      fetchCoinGecko defaultAssets .parseError = []) ∧
     (fetchDeFiLlama defaultAssets .netError = [] ∧
      fetchDeFiLlama defaultAssets .parseError = []) ∧
     (fetchFearGreed .netError = none ∧ fetchFearGreed .parseError = none) ∧
     (fetchTVL .netError = none ∧ fetchTVL .parseError = none) ∧
     (fetchStablecoins .netError = none ∧
      fetchStablecoins .parseError = none) ∧
     (fetchGas .netError = none ∧ fetchGas .parseError = none ∧
      fetchGas (.ok gasFailW) = none) ∧
     ((getFullSnapshot defaultAssets .netError .netError .netError .netError
         .netError (.ok gasFailW) 100 "x").fearGreed =
        fetchFearGreed .netError ∧
      (getFullSnapshot defaultAssets .netError .netError .netError .netError
         .netError (.ok gasFailW) 100 "x").tvl = fetchTVL .netError ∧
      (getFullSnapshot defaultAssets .netError .netError .netError .netError
         .netError (.ok gasFailW) 100 "x").stablecoins =
        fetchStablecoins .netError ∧
      (getFullSnapshot defaultAssets .netError .netError .netError .netError
         .netError (.ok gasFailW) 100 "x").gas = fetchGas (.ok gasFailW) ∧
      (getFullSnapshot defaultAssets .netError .netError .netError .netError
         .netError (.ok gasFailW) 100 "x").prices =
        defaultAssets.filterMap (fun a =>
          (crossVerify (fetchCoinGecko defaultAssets .netError)
              (fetchDeFiLlama defaultAssets .netError) a).map
            (fun v => (a, v))))) :=
  ⟨by decide,
    claim9_failures_degrade_and_isolate defaultAssets .netError .netError
      .netError .netError .netError (.ok gasFailW) 100 "x" gasFailW
      (by decide)⟩

/-- C10: whenever every adapter outcome degrades (both price maps empty,
every domain adapter yielding null — which covers all six adapters failing),
`getFullSnapshot` still returns a well-formed snapshot carrying the epoch
timestamp, the ISO string and an empty price mapping, with `none` in place
of each degraded domain block; and `getCachedSnapshot` serves and caches
this degraded snapshot under the same 60-second TTL rule as any other
snapshot, so callers receive an empty snapshot rather than an error. -/
theorem claim10_degraded_snapshot_cached
    (assets : List String)
    (rCG : Fetched (List (String × GeckoEntry))) (rDL : Fetched LlamaData)
    (rFG : Fetched FngData) (rTVL : Fetched (List ChainRaw))
    (rSC : Fetched PeggedData) (rGas : Fetched GasRaw)
    (nowSec : ℤ) (nowIso : String)
    (st : CacheState) (now tc : ℤ) (fresh : Snapshot)
    (hCG : fetchCoinGecko assets rCG = [])
    (hDL : fetchDeFiLlama assets rDL = [])
    (hFG : fetchFearGreed rFG = none)
    (hTVL : fetchTVL rTVL = none)
    (hSC : fetchStablecoins rSC = none)
    (hGas : fetchGas rGas = none) :
    ∃ s, getFullSnapshot assets rCG rDL rFG rTVL rSC rGas nowSec nowIso = s ∧
      s.timestamp = nowSec ∧ s.iso = nowIso ∧
      s.oracle = "MoltOracle v1.0.0" ∧ s.verification = "cross-sourced" ∧
      s.prices = [] ∧ s.fearGreed = none ∧ s.tvl = none ∧
      s.stablecoins = none ∧ s.gas = none ∧
      (now - tc < CACHE_TTL →
        getCachedSnapshot ⟨some s, tc⟩ now fresh = (s, ⟨some s, tc⟩, false)) ∧
      ((st.cache = none ∨ CACHE_TTL ≤ now - st.cacheTime) →
        getCachedSnapshot st now s = (s, ⟨some s, now⟩, true)) := by
  have hprices :
      (getFullSnapshot assets rCG rDL rFG rTVL rSC rGas nowSec
        nowIso).prices = [] := by
    show (assets.filterMap (fun a =>
      (crossVerify (fetchCoinGecko assets rCG) (fetchDeFiLlama assets rDL)
          a).map (fun v => (a, v)))) = []
    rw [hCG, hDL]
    apply List.filterMap_eq_nil.mpr
    intro a _
    rfl
  refine ⟨_, rfl, rfl, rfl, rfl, rfl, hprices, ?_, ?_, ?_, ?_, ?_, ?_⟩
  · show fetchFearGreed rFG = none; exact hFG
  · show fetchTVL rTVL = none; exact hTVL
  · show fetchStablecoins rSC = none; exact hSC
  · show fetchGas rGas = none; exact hGas
  · intro hlt
    simp [getCachedSnapshot, hlt]
  · intro h
    cases hcache : st.cache with
    | none => simp [getCachedSnapshot, hcache]
    | some c =>
        rcases h with h | h
        · rw [hcache] at h; cases h
        · have hge : ¬ (now - st.cacheTime < CACHE_TTL) := by omega
          simp [getCachedSnapshot, hcache, hge]

/-- witness for C10: all six adapters fail with network errors, the cycle
runs at epoch second 100, the degraded snapshot is cached at millisecond
500 and served again at millisecond 1000, and a cold cache is refreshed
with it -/
theorem claim10_degraded_snapshot_cached_witness :
    fetchCoinGecko defaultAssets .netError = [] ∧
    fetchDeFiLlama defaultAssets .netError = [] ∧
    fetchFearGreed .netError = none ∧
    fetchTVL .netError = none ∧
    fetchStablecoins .netError = none ∧
    fetchGas .netError = none ∧
    (∃ s, getFullSnapshot defaultAssets .netError .netError .netError
        .netError .netError .netError 100 "2026-01-01T00:00:00.000Z" = s ∧
      s.timestamp = 100 ∧ s.iso = "2026-01-01T00:00:00.000Z" ∧
      s.oracle = "MoltOracle v1.0.0" ∧ s.verification = "cross-sourced" ∧
      s.prices = [] ∧ s.fearGreed = none ∧ s.tvl = none ∧
      s.stablecoins = none ∧ s.gas = none ∧
      ((1000 : ℤ) - 500 < CACHE_TTL →
        getCachedSnapshot ⟨some s, 500⟩ 1000 snapB = (s, ⟨some s, 500⟩, false)) ∧
      (((⟨none, 0⟩ : CacheState).cache = none ∨
          CACHE_TTL ≤ (1000 : ℤ) - (⟨none, 0⟩ : CacheState).cacheTime) →
        getCachedSnapshot ⟨none, 0⟩ 1000 s = (s, ⟨some s, 1000⟩, true))) :=
  ⟨rfl, rfl, rfl, rfl, rfl, rfl,
    claim10_degraded_snapshot_cached defaultAssets .netError .netError
      .netError .netError .netError .netError 100 "2026-01-01T00:00:00.000Z"
      ⟨none, 0⟩ 1000 500 snapB rfl rfl rfl rfl rfl rfl⟩

end MoltOracle
